import Mathlib

/-!
Verification of the core computation of the `acs_zeropoints` notebook:
photometric zeropoints (STMag, ABMag, VegaMag), the aperture-correction
chain, and the conversion from instrumental fluxes to calibrated flux
densities and magnitudes.  Python floats are embedded as real numbers and
`np.log10` as `Real.logb 10`.
-/

noncomputable section

open Real

open Classical

/-- Zeropoint calculator, STMag part: `zp_stmag = -2.5 * np.log10(photflam) - 21.10`. -/
def zp_stmag (photflam : ℝ) : ℝ :=
  -2.5 * Real.logb 10 photflam - 21.10

/-- Zeropoint calculator, ABMag part:
`zp_abmag = -2.5 * np.log10(photflam) - (5 * np.log10(photplam)) - 2.408`. -/
def zp_abmag (photflam photplam : ℝ) : ℝ :=
  -2.5 * Real.logb 10 photflam - (5 * Real.logb 10 photplam) - 2.408

/-- First aperture-correction step: `flux05 = instrumental_flux / correction_02_to_05`
(elementwise on the measurement array; here the scalar computation). -/
def flux05 (instrumental_flux correction_02_to_05 : ℝ) : ℝ :=
  instrumental_flux / correction_02_to_05

/-- Second aperture-correction step: `flux_inf = flux05 / correction_05_to_inf`. -/
def flux_inf (instrumental_flux correction_02_to_05 correction_05_to_inf : ℝ) : ℝ :=
  flux05 instrumental_flux correction_02_to_05 / correction_05_to_inf

/-- Flux-density conversion: `f_lambda = flux_inf * photflam` (scalar form). -/
def f_lambda (fi photflam : ℝ) : ℝ :=
  fi * photflam

/-- STMag conversion: `stmags = -2.5 * np.log10(flux_inf) + zp_stmag` (scalar form). -/
def st_mag (fi zp_st : ℝ) : ℝ :=
  -2.5 * Real.logb 10 fi + zp_st

/-- ABMag conversion: `abmags = -2.5 * np.log10(flux_inf) + zp_abmag` (scalar form). -/
def ab_mag (fi zp_ab : ℝ) : ℝ :=
  -2.5 * Real.logb 10 fi + zp_ab

/-- VegaMag conversion: `vegamags = -2.5 * np.log10(flux_inf) + zp_vega` (scalar form). -/
def vega_mag (fi zp_v : ℝ) : ℝ :=
  -2.5 * Real.logb 10 fi + zp_v

/-- The elementwise STMag conversion over the whole measurement array,
as the notebook computes it with numpy broadcasting. -/
def stmags (flux_inf_values : List ℝ) (zp_st : ℝ) : List ℝ :=
  flux_inf_values.map (fun fi => -2.5 * Real.logb 10 fi + zp_st)

/-- Per-source record of the final table: columns `Measured Flux`, `F_lambda`,
`ST Mag`, `AB Mag`, `Vega Mag` of `phot_table` in the notebook. -/
structure PhotometryResult where
  measured_flux : ℝ
  f_lambda : ℝ
  st_mag : ℝ
  ab_mag : ℝ
  vega_mag : ℝ

/-- One row of the photometry table: the whole per-measurement pipeline of the
notebook (aperture-correction chain followed by the magnitude conversions). -/
def mkResult (c1 c2 photflam zp_st zp_ab zp_v flux : ℝ) : PhotometryResult :=
  { measured_flux := flux
    f_lambda := f_lambda (flux_inf flux c1 c2) photflam
    st_mag := st_mag (flux_inf flux c1 c2) zp_st
    ab_mag := ab_mag (flux_inf flux c1 c2) zp_ab
    vega_mag := vega_mag (flux_inf flux c1 c2) zp_v }

/-- The photometry table: one `PhotometryResult` per measured instrumental flux. -/
def phot_table (c1 c2 photflam zp_st zp_ab zp_v : ℝ) (fluxes : List ℝ) :
    List PhotometryResult :=
  fluxes.map (mkResult c1 c2 photflam zp_st zp_ab zp_v)

/-- Modelled from the spec: the notebook itself contains no domain check, but the
spec demands that a non-positive flux passed to the logarithm raise a
DomainError instead of silently producing NaN.  This guarded variant of the
STMag conversion follows those spec words. -/
def stmagsChecked (flux_inf_values : List ℝ) (zp_st : ℝ) : Except String (List ℝ) :=
  if ∀ fi ∈ flux_inf_values, 0 < fi then Except.ok (stmags flux_inf_values zp_st)
  else Except.error "DomainError"

/-- Modelled from the spec: the notebook itself divides unconditionally, but the
spec demands that a zero correction factor be flagged as degenerate/missing
calibration instead of being divided by silently.  This guarded variant of the
aperture-correction chain follows those spec words. -/
def flux_infChecked (raw c1 c2 : ℝ) : Except String ℝ :=
  if c1 = 0 ∨ c2 = 0 then Except.error "MissingCalibration"
  else Except.ok (flux_inf raw c1 c2)

/-- The bandpass string used throughout the notebook:
ACS/WFC1, filter F555W, observation date MJD 57754. -/
def acsBandString : String :=
  "acs, wfc1, f555w, mjd#57754"

/-- Abstract interface of the external synthetic-photometry engine
(pysynphot/stsynphot) as the notebook uses it: blackbody source construction,
bandpass lookup, normalization of a spectrum to a target count rate in a
bandpass, synthetic observation, effective stimulus in a named unit system,
and bandpass pivot wavelength.  `S`, `B`, `O` are the engine's spectrum,
bandpass and observation types. -/
structure SynPhotEngine (S B O : Type) where
  blackBody : ℕ → S
  band : String → B
  renorm : S → ℕ → B → S
  observe : S → B → O
  effstim : O → String → ℝ
  pivot : B → ℝ

/-- `spec_bb = BlackBody(10000)`. -/
def nb_spec_bb {S B O : Type} (e : SynPhotEngine S B O) : S :=
  e.blackBody 10000

/-- `bp = band('acs, wfc1, f555w, mjd#57754')`. -/
def nb_bp {S B O : Type} (e : SynPhotEngine S B O) : B :=
  e.band acsBandString

/-- `spec_bb_norm = spec_bb.renorm(1, 'counts', bp)`: the source spectrum
normalized to a count rate of 1 count/s in the bandpass. -/
def nb_spec_bb_norm {S B O : Type} (e : SynPhotEngine S B O) : S :=
  e.renorm (nb_spec_bb e) 1 (nb_bp e)

/-- `obs = Observation(spec_bb_norm, bp)`: the synthetic observation of the
normalized source through the bandpass. -/
def nb_obs {S B O : Type} (e : SynPhotEngine S B O) : O :=
  e.observe (nb_spec_bb_norm e) (nb_bp e)

/-- `zp_vega = obs.effstim('vegamag')`. -/
def zp_vega {S B O : Type} (e : SynPhotEngine S B O) : ℝ :=
  e.effstim (nb_obs e) "vegamag"

/-- `photflam = obs.effstim('flam')`. -/
def nb_photflam {S B O : Type} (e : SynPhotEngine S B O) : ℝ :=
  e.effstim (nb_obs e) "flam"

/-- `photplam = bp.pivot()`. -/
def nb_photplam {S B O : Type} (e : SynPhotEngine S B O) : ℝ :=
  e.pivot (nb_bp e)

/-- Inverse magnitude conversion used to state the round-trip property:
`flux = 10 ** ((zp - mag) / 2.5)`. -/
def mag_to_flux (zp mag : ℝ) : ℝ :=
  (10 : ℝ) ^ ((zp - mag) / 2.5)

/-- Claim C1: for every photflam > 0 and photplam > 0, the zeropoint calculator
returns `zp_st = -2.5*log10(photflam) - 21.10` and
`zp_ab = -2.5*log10(photflam) - 5*log10(photplam) - 2.408`. -/
theorem zeropoint_calculator_formulas (photflam photplam : ℝ)
    (hf : 0 < photflam) (hp : 0 < photplam) :
    zp_stmag photflam = -2.5 * Real.logb 10 photflam - 21.10 ∧
    zp_abmag photflam photplam =
      -2.5 * Real.logb 10 photflam - 5 * Real.logb 10 photplam - 2.408 :=
  ⟨rfl, rfl⟩

/-- Witness for C1 at photflam = 1, photplam = 100. -/
theorem zeropoint_calculator_formulas_witness :
    (0 : ℝ) < 1 ∧ (0 : ℝ) < 100 ∧
    (zp_stmag 1 = -2.5 * Real.logb 10 1 - 21.10 ∧
     zp_abmag 1 100 = -2.5 * Real.logb 10 1 - 5 * Real.logb 10 100 - 2.408) :=
  ⟨one_pos, by norm_num, zeropoint_calculator_formulas 1 100 one_pos (by norm_num)⟩

/-- Claim C2: for every raw flux and nonzero correction factors c1 and c2, the
aperture-correction chain returns `flux_medium = flux_raw / c1` and
`flux_inf = flux_medium / c2`; in particular for flux_raw = 10, c1 = 0.5,
c2 = 0.9 it returns flux_medium = 20 and flux_inf ≈ 22.222. -/
theorem aperture_chain_formulas (raw c1 c2 : ℝ) (h1 : c1 ≠ 0) (h2 : c2 ≠ 0) :
    flux05 raw c1 = raw / c1 ∧
    flux_inf raw c1 c2 = flux05 raw c1 / c2 ∧
    flux05 10 0.5 = 20 ∧
    |flux_inf 10 0.5 0.9 - 22.222| < 0.001 := by
  refine ⟨rfl, rfl, by norm_num [flux05], ?_⟩
  have h : flux_inf 10 0.5 0.9 = 200 / 9 := by norm_num [flux_inf, flux05]
  rw [h, abs_lt]
  constructor <;> norm_num

/-- Witness for C2 at raw = 10, c1 = 0.5, c2 = 0.9. -/
theorem aperture_chain_formulas_witness :
    (0.5 : ℝ) ≠ 0 ∧ (0.9 : ℝ) ≠ 0 ∧
    (flux05 10 0.5 = 10 / 0.5 ∧
     flux_inf 10 0.5 0.9 = flux05 10 0.5 / 0.9 ∧
     flux05 10 0.5 = 20 ∧
     |flux_inf 10 0.5 0.9 - 22.222| < 0.001) :=
  ⟨by norm_num, by norm_num,
    aperture_chain_formulas 10 0.5 0.9 (by norm_num) (by norm_num)⟩

/-- Claim C10: for every raw flux and nonzero correction factors, the two-step
aperture-correction chain equals a single division by the product:
`(flux_raw / c1) / c2 = flux_raw / (c1 * c2)`. -/
theorem aperture_chain_single_division (raw c1 c2 : ℝ)
    (h1 : c1 ≠ 0) (h2 : c2 ≠ 0) :
    flux_inf raw c1 c2 = raw / (c1 * c2) := by
  unfold flux_inf flux05
  rw [div_div]

/-- Witness for C10 at raw = 10, c1 = 2, c2 = 5. -/
theorem aperture_chain_single_division_witness :
    (2 : ℝ) ≠ 0 ∧ (5 : ℝ) ≠ 0 ∧ flux_inf 10 2 5 = 10 / (2 * 5) :=
  ⟨by norm_num, by norm_num,
    aperture_chain_single_division 10 2 5 (by norm_num) (by norm_num)⟩

/-- Claim C7: for every fixed zeropoint and corrected fluxes 0 < a < b, the
computed STMag at b is strictly smaller than the STMag at a (st_mag is
strictly decreasing in flux_inf). -/
theorem st_mag_strictly_decreasing (zp a b : ℝ) (ha : 0 < a) (hab : a < b) :
    st_mag b zp < st_mag a zp := by
  unfold st_mag
  have hlog : Real.logb 10 a < Real.logb 10 b :=
    Real.logb_lt_logb (by norm_num) ha hab
  nlinarith [hlog]

/-- Witness for C7 at a = 1, b = 10, zp = 0. -/
theorem st_mag_strictly_decreasing_witness :
    (0 : ℝ) < 1 ∧ (1 : ℝ) < 10 ∧ st_mag 10 0 < st_mag 1 0 :=
  ⟨one_pos, by norm_num, st_mag_strictly_decreasing 0 1 10 one_pos (by norm_num)⟩

/-- Claim C8: for every flux_inf > 0 and zeropoint zp, converting to a magnitude
`mag = -2.5*log10(flux_inf) + zp` and back via `10^((zp - mag)/2.5)` recovers
flux_inf (here exactly, hence within any floating-point tolerance). -/
theorem st_mag_round_trip (fi zp : ℝ) (h : 0 < fi) :
    mag_to_flux zp (st_mag fi zp) = fi := by
  unfold mag_to_flux st_mag
  have harg : (zp - (-2.5 * Real.logb 10 fi + zp)) / 2.5 = Real.logb 10 fi := by
    ring
  rw [harg]
  exact Real.rpow_logb (by norm_num) (by norm_num) h

/-- Witness for C8 at fi = 100, zp = 3. -/
theorem st_mag_round_trip_witness :
    (0 : ℝ) < 100 ∧ mag_to_flux 3 (st_mag 100 3) = 100 :=
  ⟨by norm_num, st_mag_round_trip 100 3 (by norm_num)⟩

/-- Claim C3: for every corrected flux flux_inf > 0, photflam and zeropoints,
the magnitude converter returns `f_lambda = flux_inf * photflam`,
`st_mag = -2.5*log10(flux_inf) + zp_st`, `ab_mag = -2.5*log10(flux_inf) + zp_ab`
and `vega_mag = -2.5*log10(flux_inf) + zp_vega`, producing one
PhotometryResult per input measurement. -/
theorem magnitude_converter_formulas (fi photflam zp_st zp_ab zp_v : ℝ)
    (hfi : 0 < fi) (c1 c2 : ℝ) (fluxes : List ℝ) :
    f_lambda fi photflam = fi * photflam ∧
    st_mag fi zp_st = -2.5 * Real.logb 10 fi + zp_st ∧
    ab_mag fi zp_ab = -2.5 * Real.logb 10 fi + zp_ab ∧
    vega_mag fi zp_v = -2.5 * Real.logb 10 fi + zp_v ∧
    (phot_table c1 c2 photflam zp_st zp_ab zp_v fluxes).length = fluxes.length :=
  ⟨rfl, rfl, rfl, rfl, List.length_map _ _⟩

/-- Witness for C3 at fi = 1, all other parameters 1, fluxes = [5.2393]. -/
theorem magnitude_converter_formulas_witness :
    (0 : ℝ) < 1 ∧
    (f_lambda 1 1 = 1 * 1 ∧
     st_mag 1 1 = -2.5 * Real.logb 10 1 + 1 ∧
     ab_mag 1 1 = -2.5 * Real.logb 10 1 + 1 ∧
     vega_mag 1 1 = -2.5 * Real.logb 10 1 + 1 ∧
     (phot_table 1 1 1 1 1 1 [5.2393]).length = [(5.2393 : ℝ)].length) :=
  ⟨one_pos, magnitude_converter_formulas 1 1 1 1 1 one_pos 1 1 [5.2393]⟩

/-- Claim C9: for every two measurement sets that agree at index i (with the
same calibration constants, correction factors and zeropoints), the i-th
PhotometryResult is identical in both runs: each result depends only on its
own measured flux and the shared constants, with no ordering dependency. -/
theorem phot_table_pointwise_independent (l1 l2 : List ℝ)
    (c1 c2 photflam zp_st zp_ab zp_v : ℝ) (i : ℕ)
    (heq : l1[i]? = l2[i]?) :
    (phot_table c1 c2 photflam zp_st zp_ab zp_v l1)[i]? =
      (phot_table c1 c2 photflam zp_st zp_ab zp_v l2)[i]? := by
  simp only [phot_table, List.getElem?_map, heq]

/-- Witness for C9: lists [1, 2] and [3, 2] agree at index 1 and so do their
photometry tables. -/
theorem phot_table_pointwise_independent_witness :
    ([1, 2] : List ℝ)[1]? = ([3, 2] : List ℝ)[1]? ∧
    (phot_table 1 1 1 0 0 0 [1, 2])[1]? = (phot_table 1 1 1 0 0 0 [3, 2])[1]? :=
  ⟨rfl, phot_table_pointwise_independent [1, 2] [3, 2] 1 1 1 0 0 0 1 rfl⟩

/-- Claim C4: the VegaMag zeropoint is obtained as the vegamag effective
stimulus of a synthetic observation of a reference spectrum normalized to a
count rate of 1 count/s in the same bandpass, not from a closed-form
expression over photflam/photplam: two engines agreeing on photflam and
photplam may disagree on zp_vega. -/
theorem zp_vega_from_synthetic_observation :
    (∀ (S B O : Type) (e : SynPhotEngine S B O),
      zp_vega e =
        e.effstim
          (e.observe (e.renorm (e.blackBody 10000) 1 (e.band acsBandString))
            (e.band acsBandString)) "vegamag") ∧
    (∃ e1 e2 : SynPhotEngine Unit Unit Unit,
      nb_photflam e1 = nb_photflam e2 ∧
      nb_photplam e1 = nb_photplam e2 ∧
      zp_vega e1 ≠ zp_vega e2) := by
  constructor
  · intro S B O e
    rfl
  · refine ⟨⟨fun _ => (), fun _ => (), fun _ _ _ => (), fun _ _ => (),
        fun _ s => if s = "vegamag" then 0 else 1, fun _ => 5500⟩,
      ⟨fun _ => (), fun _ => (), fun _ _ _ => (), fun _ _ => (),
        fun _ s => if s = "vegamag" then 5 else 1, fun _ => 5500⟩, ?_, ?_, ?_⟩
    · show (if ("flam" : String) = "vegamag" then (0 : ℝ) else 1) =
        (if ("flam" : String) = "vegamag" then (5 : ℝ) else 1)
      rw [if_neg (by decide), if_neg (by decide)]
    · rfl
    · show (if ("vegamag" : String) = "vegamag" then (0 : ℝ) else 1) ≠
        (if ("vegamag" : String) = "vegamag" then (5 : ℝ) else 1)
      rw [if_pos rfl, if_pos rfl]
      norm_num

/-- Counterexample to claim C5: at flux_inf = 0 the notebook's STMag
conversion returns an ordinary value while the DomainError-raising behavior
demanded by the claim would signal an error. -/
theorem stmags_no_domain_error_counterexample :
    Except.ok (stmags [0] 21) ≠ stmagsChecked [0] 21 := by
  have h : ¬ ∀ fi ∈ ([0] : List ℝ), 0 < fi := by
    intro hall
    exact absurd (hall 0 (List.mem_singleton_self 0)) (lt_irrefl 0)
  simp [stmagsChecked, h]

/-- Amended claim C5: the notebook applies the logarithm unguarded; it agrees
with the DomainError-raising behavior exactly when every flux is positive,
and for a non-positive flux it silently returns the value of the formula
instead of signaling an error. -/
theorem stmags_checked_agreement (fluxes : List ℝ) (zp : ℝ) :
    Except.ok (stmags fluxes zp) = stmagsChecked fluxes zp ↔
      ∀ fi ∈ fluxes, 0 < fi := by
  unfold stmagsChecked
  by_cases h : ∀ fi ∈ fluxes, 0 < fi
  · rw [if_pos h]
    exact iff_of_true rfl h
  · rw [if_neg h]
    exact iff_of_false (by simp) h

/-- Counterexample to claim C6: at c1 = 0 the notebook's aperture-correction
chain performs the division silently while the flagging behavior demanded by
the claim would mark the input as invalid. -/
theorem flux_inf_no_flag_counterexample :
    Except.ok (flux_inf 10 0 0.9) ≠ flux_infChecked 10 0 0.9 := by
  have h : (0 : ℝ) = 0 ∨ (0.9 : ℝ) = 0 := Or.inl rfl
  simp [flux_infChecked, h]

/-- Amended claim C6: the notebook divides unconditionally; it agrees with the
flagged (invalid-input) behavior exactly when both correction factors are
nonzero, and for c1 = 0 or c2 = 0 it silently returns the result of the
division instead of flagging the input. -/
theorem flux_inf_checked_agreement (raw c1 c2 : ℝ) :
    Except.ok (flux_inf raw c1 c2) = flux_infChecked raw c1 c2 ↔
      c1 ≠ 0 ∧ c2 ≠ 0 := by
  unfold flux_infChecked
  by_cases h : c1 = 0 ∨ c2 = 0
  · rw [if_pos h]
    exact iff_of_false (by simp) (fun hne => h.elim hne.1 hne.2)
  · rw [if_neg h]
    rw [not_or] at h
    exact iff_of_true rfl ⟨h.1, h.2⟩

end
